import Mathlib

/-
Verification of the upload-result correlation protocol implemented in
pages/01_Detect_PPE_Upload.py (functions poll_violation_result,
get_employee_profile, build_display_result).

Modelling conventions:
  * Wall-clock time is modelled in whole seconds as a Nat.  The source
    constants are POLL_SECONDS = 25 and POLL_INTERVAL = 2.0 (a whole
    number of seconds), so Nat time is exact.
  * The Outcome Store (DynamoDB table violation_master) is a time-indexed
    table: at each instant the scan either fails with an InfraError
    (store unreachable, auth failure) or returns the table contents.
    The FilterExpression of the scan is applied to those contents.
  * The Profile Store (table employee_master) maps an EmployeeID to
    either a failure, no item, or an item.
  * A DynamoDB item attribute that may be absent is an Option field;
    dict.get(k, d) is Option.getD, and the Python "x or d" idiom on
    strings (None and "" are both falsy) is the function pyOr below.
  * Each embedded operation also returns the list of store operations it
    issued (its trace), so that read-only-ness and the times at which
    scans are issued are provable facts rather than modelling artefacts.
  * The polling while-loop is embedded with structural fuel
    POLL_SECONDS; since each iteration advances time by
    POLL_INTERVAL = 2 >= 1 seconds, the fuel can never be exhausted
    while time is still before the deadline, so the embedding computes
    exactly the while-loop of the source.
-/

set_option autoImplicit false
set_option maxHeartbeats 1000000

namespace PPEDetect

/-- Failures raised by the AWS SDK calls (network or auth failures). -/
inductive InfraError where
  | connectionError (msg : String)
  | authError (msg : String)
  deriving DecidableEq, Repr

/-- One item of the violation_master table, with the attributes the page
reads (the scan projects EmployeeID, violations, last_missing,
last_updated, last_image_key).  Attributes that an item may lack are
Option fields. -/
structure VioItem where
  EmployeeID : Option String
  violations : Option Int
  last_missing : Option String
  last_updated : Option String
  last_image_key : Option String
  deriving DecidableEq, Repr

/-- One item of the employee_master table, restricted to the attributes
build_display_result reads (name, department, site). -/
structure ProfileItem where
  name : Option String
  department : Option String
  site : Option String
  deriving DecidableEq, Repr

/-- The empty dict returned by get_employee_profile when the table has no
item for the requested key: every get on it yields None. -/
def emptyProfile : ProfileItem :=
  { name := none, department := none, site := none }

/-- The result dict composed by build_display_result.  A dict key that is
absent in one branch and present in the other (violation_count) is an
Option field, none meaning the key is absent. -/
structure DisplayResult where
  employee_id : String
  name : String
  department : String
  site : String
  shift : Option String
  zone : Option String
  timestamp : String
  status : String
  violations : List String
  ppe_detected : List String
  model_confidence : Option Int
  image_key : String
  violation_count : Option Int
  deriving DecidableEq, Repr

/-- Store operations issued against DynamoDB, with enough information to
give them a semantics: reads (scan, get_item) and the writes the tables
admit (never issued by this page, which is what claim C9 asserts). -/
inductive StoreOp where
  | scanOutcome (t : Nat) (key : String)
  | getProfile (id : String)
  | putOutcome (item : VioItem)
  | putProfile (id : String) (item : ProfileItem)
  deriving DecidableEq, Repr

/-- Whether a store operation is a read. -/
def StoreOp.isRead : StoreOp → Bool
  | .scanOutcome _ _ => true
  | .getProfile _ => true
  | .putOutcome _ => false
  | .putProfile _ _ => false

/-- The Outcome Store as seen from the page: a scan at time t either
fails or returns the table contents at that time. -/
abbrev OStore := Nat → Except InfraError (List VioItem)

/-- The Profile Store: a get_item either fails or returns the stored item
(if any) for the key. -/
abbrev PStore := String → Except InfraError (Option ProfileItem)

/-- The contents of both stores, for stating the frame property. -/
structure StoresState where
  outcome : List VioItem
  profiles : String → Option ProfileItem

/-- Semantics of a store operation on the stores: reads leave the state
unchanged, writes modify it. -/
def applyOp (s : StoresState) (op : StoreOp) : StoresState :=
  match op with
  | .scanOutcome _ _ => s
  | .getProfile _ => s
  | .putOutcome item => { s with outcome := s.outcome ++ [item] }
  | .putProfile id item =>
      { s with profiles := fun x => if x = id then some item else s.profiles x }

/-- Poll settings of the source page (module-level constants):
POLL_SECONDS = 25 and POLL_INTERVAL = 2.0 seconds. -/
def POLL_SECONDS : Nat := 25

/-- The sleep between two polls, 2.0 seconds in the source. -/
def POLL_INTERVAL : Nat := 2

/-- The FilterExpression of the scan:
Attr("last_image_key").eq(image_key).  An item lacking the attribute does
not match. -/
def matchesKey (key : String) (it : VioItem) : Bool :=
  it.last_image_key == some key

/-- Python "x or d" for a string-valued dict entry: None and the empty
string are falsy. -/
def pyOr (o : Option String) (d : String) : String :=
  match o with
  | none => d
  | some s => if s = "" then d else s

/-- os.path.basename for the slash-separated object keys used here. -/
def basename (s : String) : String :=
  (s.splitOn "/").getLastD s

/-- Python str.split(",") on the character list: splits at every comma;
the empty string yields [""]  (acc holds the current field reversed). -/
def splitCommaAux : List Char → List Char → List String
  | [], acc => [String.mk acc.reverse]
  | c :: cs, acc =>
    if c = ',' then String.mk acc.reverse :: splitCommaAux cs []
    else splitCommaAux cs (c :: acc)

/-- Python str.split(","). -/
def pySplitComma (s : String) : List String :=
  splitCommaAux s.data []

/-- Python str.strip(): remove leading and trailing whitespace. -/
def pyStrip (s : String) : String :=
  String.mk (((s.data.dropWhile Char.isWhitespace).reverse.dropWhile Char.isWhitespace).reverse)

/-- The list comprehension of line 165 of the source:
[x.strip() for x in last_missing.split(",") if x.strip()]  (a stripped
field is kept only when non-empty, Python truthiness on strings). -/
def parseMissing (s : String) : List String :=
  ((pySplitComma s).map pyStrip).filter (fun x => x ≠ "")

/-- The body of the while-loop of poll_violation_result, with structural
fuel.  Each iteration runs at wall-clock time t: if t is before the
deadline it scans the table (recording the operation), returns the first
filtered item if any, and otherwise sleeps POLL_INTERVAL and retries.
Fuel POLL_SECONDS is enough: each iteration advances t by
POLL_INTERVAL = 2, so the loop runs at most 13 <= POLL_SECONDS times. -/
def pollLoopAux (ostore : OStore) (key : String) (deadline : Nat) :
    Nat → Nat → List StoreOp × Except InfraError (Option VioItem)
  | 0, _ => ([], Except.ok none)
  | fuel + 1, t =>
    if t < deadline then
      match ostore t with
      | Except.error e => ([StoreOp.scanOutcome t key], Except.error e)
      | Except.ok items =>
        match items.filter (matchesKey key) with
        | [] =>
          let r := pollLoopAux ostore key deadline fuel (t + POLL_INTERVAL)
          (StoreOp.scanOutcome t key :: r.1, r.2)
        | it :: _ => ([StoreOp.scanOutcome t key], Except.ok (some it))
    else ([], Except.ok none)

/-- poll_violation_result (lines 103-123): deadline = now + POLL_SECONDS,
then poll the violation_master table for a row whose last_image_key
equals image_key; items[0] of the first non-empty response is returned,
None on timeout.  t0 is the value of time.time() at entry. -/
def poll_violation_result (ostore : OStore) (key : String) (t0 : Nat) :
    List StoreOp × Except InfraError (Option VioItem) :=
  pollLoopAux ostore key (t0 + POLL_SECONDS) POLL_SECONDS t0

/-- get_employee_profile (lines 125-132): get_item on employee_master,
resp.get("Item", \x7b\x7d). -/
def get_employee_profile (pstore : PStore) (employee_id : String) :
    List StoreOp × Except InfraError ProfileItem :=
  match pstore employee_id with
  | Except.error e => ([StoreOp.getProfile employee_id], Except.error e)
  | Except.ok item => ([StoreOp.getProfile employee_id], Except.ok (item.getD emptyProfile))

/-- The placeholder dict of lines 145-158, returned when the poll found
nothing (result still pending, or the person was compliant).  nowStr is
datetime.utcnow() formatted; the dict has no violation_count key. -/
def placeholderResult (key : String) (nowStr : String) : DisplayResult :=
  { employee_id := "—"
    name := basename key
    department := "—"
    site := "—"
    shift := none
    zone := none
    timestamp := nowStr
    status := "Compliant or Pending"
    violations := []
    ppe_detected := []
    model_confidence := none
    image_key := key
    violation_count := none }

/-- The dict of lines 167-181, composed from the matched violation row
and the employee profile. -/
def composeResult (vio : VioItem) (profile : ProfileItem) (key : String)
    (nowStr : String) : DisplayResult :=
  let employee_id := vio.EmployeeID.getD "—"
  let last_missing := vio.last_missing.getD ""
  let violations := parseMissing last_missing
  { employee_id := employee_id
    name := pyOr profile.name employee_id
    department := pyOr profile.department "—"
    site := pyOr profile.site "—"
    shift := none
    zone := none
    timestamp := pyOr vio.last_updated nowStr
    status := if violations.isEmpty then "Compliant" else "Non-Compliant"
    violations := violations
    ppe_detected := []
    model_confidence := none
    image_key := key
    violation_count := some (vio.violations.getD 0) }

/-- build_display_result (lines 134-181): poll the Outcome Store; on
timeout return the placeholder; on a match look the employee up in the
Profile Store and compose the result.  Exceptions from either store call
propagate (the function has no try/except of its own). -/
def build_display_result (ostore : OStore) (pstore : PStore) (key : String)
    (t0 : Nat) (nowStr : String) :
    List StoreOp × Except InfraError DisplayResult :=
  match poll_violation_result ostore key t0 with
  | (tr, Except.error e) => (tr, Except.error e)
  | (tr, Except.ok none) => (tr, Except.ok (placeholderResult key nowStr))
  | (tr, Except.ok (some vio)) =>
    let employee_id := vio.EmployeeID.getD "—"
    match get_employee_profile pstore employee_id with
    | (tr2, Except.error e) => (tr ++ tr2, Except.error e)
    | (tr2, Except.ok profile) =>
      (tr ++ tr2, Except.ok (composeResult vio profile key nowStr))

/-- Modelled from the spec: the polling loop of the operation
correlate(imageKey, budget, pollInterval) of section 4.1, in which the
budget and the poll interval are caller-supplied arguments (the code has
no such parameters; this definition exists to compare the code against
the spec's parameterized operation).  Fuel is the budget; an interval of
zero is clamped to one second so the model loop terminates. -/
def specLoopAux (ostore : OStore) (key : String) (interval deadline : Nat) :
    Nat → Nat → Except InfraError (Option VioItem)
  | 0, _ => Except.ok none
  | fuel + 1, t =>
    if t < deadline then
      match ostore t with
      | Except.error e => Except.error e
      | Except.ok items =>
        match items.filter (matchesKey key) with
        | [] => specLoopAux ostore key interval deadline fuel (t + max 1 interval)
        | it :: _ => Except.ok (some it)
    else Except.ok none

/-- Modelled from the spec: correlate's poll phase with caller-supplied
budget and pollInterval (spec section 4.1, steps 1-2): deadline is
now() + budget, and the loop retries every pollInterval seconds. -/
def correlate_spec_poll (ostore : OStore) (key : String)
    (t0 budget interval : Nat) : Except InfraError (Option VioItem) :=
  specLoopAux ostore key interval (t0 + budget) budget t0

/- ------------------------------------------------------------------
Unfolding lemmas for the fueled loops.
------------------------------------------------------------------ -/

theorem pollLoopAux_zero (ostore : OStore) (key : String) (deadline t : Nat) :
    pollLoopAux ostore key deadline 0 t = ([], Except.ok none) := rfl

theorem pollLoopAux_succ (ostore : OStore) (key : String)
    (deadline fuel t : Nat) :
    pollLoopAux ostore key deadline (fuel + 1) t =
      if t < deadline then
        match ostore t with
        | Except.error e => ([StoreOp.scanOutcome t key], Except.error e)
        | Except.ok items =>
          match items.filter (matchesKey key) with
          | [] =>
            let r := pollLoopAux ostore key deadline fuel (t + POLL_INTERVAL)
            (StoreOp.scanOutcome t key :: r.1, r.2)
          | it :: _ => ([StoreOp.scanOutcome t key], Except.ok (some it))
      else ([], Except.ok none) := rfl

theorem specLoopAux_zero (ostore : OStore) (key : String)
    (interval deadline t : Nat) :
    specLoopAux ostore key interval deadline 0 t = Except.ok none := rfl

theorem specLoopAux_succ (ostore : OStore) (key : String)
    (interval deadline fuel t : Nat) :
    specLoopAux ostore key interval deadline (fuel + 1) t =
      if t < deadline then
        match ostore t with
        | Except.error e => Except.error e
        | Except.ok items =>
          match items.filter (matchesKey key) with
          | [] => specLoopAux ostore key interval deadline fuel (t + max 1 interval)
          | it :: _ => Except.ok (some it)
      else Except.ok none := rfl

/- ------------------------------------------------------------------
General lemmas about the polling loop.
------------------------------------------------------------------ -/

/-- If no scan before the deadline can produce a matching item, the loop
returns None (for any fuel). -/
theorem pollLoopAux_no_match (ostore : OStore) (key : String) (deadline : Nat) :
    ∀ fuel t,
      (∀ u, t ≤ u → u < deadline →
        ∃ items, ostore u = Except.ok items ∧ items.filter (matchesKey key) = []) →
      (pollLoopAux ostore key deadline fuel t).2 = Except.ok none := by
  intro fuel
  induction fuel with
  | zero => intro t _; rfl
  | succ n ih =>
    intro t h
    rw [pollLoopAux_succ]
    by_cases hlt : t < deadline
    · rw [if_pos hlt]
      obtain ⟨items, hi, hf⟩ := h t le_rfl hlt
      rw [hi]
      dsimp only
      rw [hf]
      exact ih (t + POLL_INTERVAL)
        (fun u hu hv => h u (le_trans (Nat.le_add_right t POLL_INTERVAL) hu) hv)
    · rw [if_neg hlt]

/-- Every scan recorded in the loop's trace was issued strictly before
the deadline. -/
theorem pollLoopAux_scan_lt (ostore : OStore) (key : String) (deadline : Nat) :
    ∀ fuel t u k,
      StoreOp.scanOutcome u k ∈ (pollLoopAux ostore key deadline fuel t).1 →
      u < deadline := by
  intro fuel
  induction fuel with
  | zero =>
    intro t u k hmem
    rw [pollLoopAux_zero] at hmem
    simp at hmem
  | succ n ih =>
    intro t u k hmem
    rw [pollLoopAux_succ] at hmem
    by_cases hlt : t < deadline
    · rw [if_pos hlt] at hmem
      rcases ho : ostore t with e | items
      · rw [ho] at hmem
        dsimp only at hmem
        simp at hmem
        omega
      · rw [ho] at hmem
        dsimp only at hmem
        rcases hf : items.filter (matchesKey key) with _ | ⟨it, rest⟩
        · rw [hf] at hmem
          dsimp only at hmem
          rcases List.mem_cons.mp hmem with h1 | h2
          · simp at h1
            omega
          · exact ih (t + POLL_INTERVAL) u k h2
        · rw [hf] at hmem
          dsimp only at hmem
          simp at hmem
          omega
    · rw [if_neg hlt] at hmem
      simp at hmem

/-- Every operation the loop issues is a read. -/
theorem pollLoopAux_all_reads (ostore : OStore) (key : String) (deadline : Nat) :
    ∀ fuel t,
      ((pollLoopAux ostore key deadline fuel t).1.all StoreOp.isRead) = true := by
  intro fuel
  induction fuel with
  | zero => intro t; rfl
  | succ n ih =>
    intro t
    rw [pollLoopAux_succ]
    by_cases hlt : t < deadline
    · rw [if_pos hlt]
      rcases ho : ostore t with e | items
      · rfl
      · dsimp only
        rcases hf : items.filter (matchesKey key) with _ | ⟨it, rest⟩
        · dsimp only
          rw [List.all_cons, ih (t + POLL_INTERVAL)]
          rfl
        · rfl
    · rw [if_neg hlt]
      rfl

/-- The code's polling loop computes exactly the spec's parameterized
loop instantiated at the fixed module constants. -/
theorem pollLoopAux_eq_spec (ostore : OStore) (key : String) (deadline : Nat) :
    ∀ fuel t,
      (pollLoopAux ostore key deadline fuel t).2 =
        specLoopAux ostore key POLL_INTERVAL deadline fuel t := by
  intro fuel
  induction fuel with
  | zero => intro t; rfl
  | succ n ih =>
    intro t
    rw [pollLoopAux_succ, specLoopAux_succ]
    by_cases hlt : t < deadline
    · rw [if_pos hlt, if_pos hlt]
      rcases ho : ostore t with e | items
      · rfl
      · dsimp only
        rcases hf : items.filter (matchesKey key) with _ | ⟨it, rest⟩
        · dsimp only
          have hmax : max 1 POLL_INTERVAL = POLL_INTERVAL := by decide
          rw [hmax]
          exact ih (t + POLL_INTERVAL)
        · rfl
    · rw [if_neg hlt, if_neg hlt]

/- ------------------------------------------------------------------
Case lemmas for build_display_result.
------------------------------------------------------------------ -/

/-- When the poll finds a row and the profile lookup succeeds,
build_display_result composes the matched row with the profile (an
absent profile item is the empty dict). -/
theorem build_matched (ostore : OStore) (pstore : PStore) (key : String)
    (t0 : Nat) (nowStr : String) (vio : VioItem) (p : Option ProfileItem)
    (h1 : (poll_violation_result ostore key t0).2 = Except.ok (some vio))
    (h2 : pstore (vio.EmployeeID.getD "—") = Except.ok p) :
    (build_display_result ostore pstore key t0 nowStr).2 =
      Except.ok (composeResult vio (p.getD emptyProfile) key nowStr) := by
  unfold build_display_result
  rcases hp : poll_violation_result ostore key t0 with ⟨tr, r⟩
  rw [hp] at h1
  dsimp only at h1
  subst h1
  dsimp only
  unfold get_employee_profile
  rw [h2]

/-- When the poll times out, build_display_result returns the
placeholder. -/
theorem build_timeout (ostore : OStore) (pstore : PStore) (key : String)
    (t0 : Nat) (nowStr : String)
    (h1 : (poll_violation_result ostore key t0).2 = Except.ok none) :
    (build_display_result ostore pstore key t0 nowStr).2 =
      Except.ok (placeholderResult key nowStr) := by
  unfold build_display_result
  rcases hp : poll_violation_result ostore key t0 with ⟨tr, r⟩
  rw [hp] at h1
  dsimp only at h1
  subst h1
  rfl

/-- A failure of the Outcome Store scan propagates out of
build_display_result. -/
theorem build_poll_error (ostore : OStore) (pstore : PStore) (key : String)
    (t0 : Nat) (nowStr : String) (e : InfraError)
    (h1 : (poll_violation_result ostore key t0).2 = Except.error e) :
    (build_display_result ostore pstore key t0 nowStr).2 = Except.error e := by
  unfold build_display_result
  rcases hp : poll_violation_result ostore key t0 with ⟨tr, r⟩
  rw [hp] at h1
  dsimp only at h1
  subst h1
  rfl

/-- A failure of the Profile Store lookup after a match propagates out of
build_display_result. -/
theorem build_profile_error (ostore : OStore) (pstore : PStore) (key : String)
    (t0 : Nat) (nowStr : String) (vio : VioItem) (e : InfraError)
    (h1 : (poll_violation_result ostore key t0).2 = Except.ok (some vio))
    (h2 : pstore (vio.EmployeeID.getD "—") = Except.error e) :
    (build_display_result ostore pstore key t0 nowStr).2 = Except.error e := by
  unfold build_display_result
  rcases hp : poll_violation_result ostore key t0 with ⟨tr, r⟩
  rw [hp] at h1
  dsimp only at h1
  subst h1
  dsimp only
  unfold get_employee_profile
  rw [h2]

/-- Folding read operations over the stores leaves them unchanged. -/
theorem foldl_reads_id (ops : List StoreOp) :
    (ops.all StoreOp.isRead) = true →
    ∀ s : StoresState, ops.foldl applyOp s = s := by
  induction ops with
  | nil => intro _ s; rfl
  | cons op rest ih =>
    intro h s
    rw [List.all_cons] at h
    rcases Bool.and_eq_true_iff.mp h with ⟨h1, h2⟩
    rw [List.foldl_cons]
    have hop : applyOp s op = s := by
      cases op with
      | scanOutcome t k => rfl
      | getProfile id => rfl
      | putOutcome item => simp [StoreOp.isRead] at h1
      | putProfile id item => simp [StoreOp.isRead] at h1
    rw [hop]
    exact ih h2 s

/-- The trace of build_display_result consists of reads only. -/
theorem build_all_reads (ostore : OStore) (pstore : PStore) (key : String)
    (t0 : Nat) (nowStr : String) :
    ((build_display_result ostore pstore key t0 nowStr).1.all StoreOp.isRead) = true := by
  unfold build_display_result
  rcases hp : poll_violation_result ostore key t0 with ⟨tr, r⟩
  have htr : (tr.all StoreOp.isRead) = true := by
    have := pollLoopAux_all_reads ostore key (t0 + POLL_SECONDS) POLL_SECONDS t0
    rw [poll_violation_result] at hp
    rw [hp] at this
    exact this
  rcases r with e | vio
  · exact htr
  · rcases vio with _ | vio
    · exact htr
    · dsimp only
      unfold get_employee_profile
      rcases hq : pstore (vio.EmployeeID.getD "—") with e | item
      · dsimp only
        rw [List.all_append, htr]
        rfl
      · dsimp only
        rw [List.all_append, htr]
        rfl

/- ------------------------------------------------------------------
Concrete fixtures used by the witnesses and counterexamples.
------------------------------------------------------------------ -/

/-- An Outcome Store that never holds any row. -/
def emptyOStore : OStore := fun _ => Except.ok []

/-- A Profile Store with no items. -/
def pstoreEmpty : PStore := fun _ => Except.ok none

/-- The Scenario B row: emp07, two missing items, cumulative count 4. -/
def itemB : VioItem :=
  { EmployeeID := some "emp07"
    violations := some 4
    last_missing := some "No Helmet, No Vest"
    last_updated := some "2024-05-01 12:00:06"
    last_image_key := some "uploads/123-abc.png" }

/-- The Scenario B Outcome Store: the row appears after 6 seconds. -/
def storeB : OStore := fun t => Except.ok (if 6 ≤ t then [itemB] else [])

/-- A profile for emp07. -/
def profileB : ProfileItem :=
  { name := some "Alex Chen", department := some "Assembly", site := some "Plant 2" }

/-- A Profile Store holding only emp07. -/
def pstoreB : PStore :=
  fun id => Except.ok (if id = "emp07" then some profileB else none)

/-- The infrastructure failure used by the failure fixtures. -/
def connErr : InfraError := InfraError.connectionError "connect timeout"

/-- A Profile Store whose every call raises a connection error. -/
def pstoreDown : PStore := fun _ => Except.error connErr

/-- An Outcome Store whose every scan raises a connection error. -/
def ostoreDown : OStore := fun _ => Except.error connErr

/-- Two rows matching the same image key; this one has the earlier
last_updated and sits first in the scan response. -/
def rowEarly : VioItem :=
  { EmployeeID := some "emp01"
    violations := some 1
    last_missing := some "No Helmet"
    last_updated := some "2024-05-01 09:00:00"
    last_image_key := some "uploads/123-abc.png" }

/-- The second matching row, with the strictly later last_updated. -/
def rowLate : VioItem :=
  { EmployeeID := some "emp02"
    violations := some 3
    last_missing := some "No Vest"
    last_updated := some "2024-05-02 09:00:00"
    last_image_key := some "uploads/123-abc.png" }

/-- An Outcome Store whose scan returns both matching rows, earlier-updated
row first. -/
def storeTwo : OStore := fun _ => Except.ok [rowEarly, rowLate]

/-- A row that only appears 26 seconds after the upload. -/
def lateItem : VioItem :=
  { EmployeeID := some "emp09"
    violations := some 2
    last_missing := some "No Gloves"
    last_updated := some "2024-05-01 10:00:26"
    last_image_key := some "uploads/late.png" }

/-- The Outcome Store for the late row. -/
def lateStore : OStore := fun t => Except.ok (if 26 ≤ t then [lateItem] else [])

/-- A matched row that lacks the violations attribute. -/
def itemNoCount : VioItem :=
  { EmployeeID := some "emp03"
    violations := none
    last_missing := some "No Vest"
    last_updated := none
    last_image_key := some "uploads/nocount.png" }

/-- Outcome Store holding only the row without a violations attribute. -/
def storeNoCount : OStore := fun _ => Except.ok [itemNoCount]

/-- The Scenario D row: last_missing is the empty string. -/
def itemClean : VioItem :=
  { EmployeeID := some "emp05"
    violations := some 0
    last_missing := some ""
    last_updated := some "2024-05-01 11:00:00"
    last_image_key := some "uploads/clean.png" }

/-- Outcome Store holding only the Scenario D row. -/
def storeClean : OStore := fun _ => Except.ok [itemClean]

/- ------------------------------------------------------------------
Claim theorems.
------------------------------------------------------------------ -/

/-- Claim C1: for an image key for which the Outcome Store never
contains a matching last_image_key at any instant within the polling
budget, build_display_result returns the pending placeholder: status
"Compliant or Pending" (the PendingOrCompliant state), the placeholder
employee id, an empty violations list, no cumulative violation count
entry, and image_key equal to the given key. -/
theorem correlate_timeout_placeholder (ostore : OStore) (pstore : PStore)
    (key : String) (t0 : Nat) (nowStr : String)
    (h : ∀ u, t0 ≤ u → u < t0 + POLL_SECONDS →
      ∃ items, ostore u = Except.ok items ∧ items.filter (matchesKey key) = []) :
    (build_display_result ostore pstore key t0 nowStr).2 =
      Except.ok (placeholderResult key nowStr) ∧
    (placeholderResult key nowStr).status = "Compliant or Pending" ∧
    (placeholderResult key nowStr).employee_id = "—" ∧
    (placeholderResult key nowStr).violations = [] ∧
    (placeholderResult key nowStr).violation_count = none ∧
    (placeholderResult key nowStr).image_key = key := by
  refine ⟨?_, rfl, rfl, rfl, rfl, rfl⟩
  apply build_timeout
  exact pollLoopAux_no_match ostore key (t0 + POLL_SECONDS) POLL_SECONDS t0 h

/-- Claim C1 witness: a store that never matches yields the placeholder. -/
theorem correlate_timeout_placeholder_witness :
    (build_display_result emptyOStore pstoreEmpty "uploads/123-abc.png" 0
        "2024-05-01 12:00:31").2 =
      Except.ok (placeholderResult "uploads/123-abc.png" "2024-05-01 12:00:31") :=
  (correlate_timeout_placeholder emptyOStore pstoreEmpty "uploads/123-abc.png" 0
    "2024-05-01 12:00:31" (fun _ _ _ => ⟨[], rfl, rfl⟩)).1

/-- Claim C2 counterexample: the scan response holds two rows matching
the same image key; the code returns items[0] (the earlier-updated row)
even though the other matching row has a strictly later last_updated, so
the claim that the latest-updated record is selected is false. -/
theorem poll_picks_first_not_latest :
    (poll_violation_result storeTwo "uploads/123-abc.png" 0).2 =
      Except.ok (some rowEarly) ∧
    matchesKey "uploads/123-abc.png" rowLate = true ∧
    rowEarly.last_updated = some "2024-05-01 09:00:00" ∧
    rowLate.last_updated = some "2024-05-02 09:00:00" ∧
    compare "2024-05-01 09:00:00" "2024-05-02 09:00:00" = Ordering.lt ∧
    rowEarly ≠ rowLate :=
  ⟨rfl, rfl, rfl, rfl, rfl, by decide⟩

/-- Claim C2 (amended): when the scan response contains several matching
records the code deterministically selects the first record of the
response list (items[0]), irrespective of last_updated. -/
theorem poll_selects_first_listed (ostore : OStore) (key : String) (t0 : Nat)
    (items : List VioItem) (vio : VioItem) (rest : List VioItem)
    (h0 : ostore t0 = Except.ok items)
    (h1 : items.filter (matchesKey key) = vio :: rest) :
    (poll_violation_result ostore key t0).2 = Except.ok (some vio) := by
  unfold poll_violation_result
  have h25 : POLL_SECONDS = 24 + 1 := rfl
  rw [h25, pollLoopAux_succ]
  rw [if_pos (by omega : t0 < t0 + (24 + 1))]
  rw [h0]
  dsimp only
  rw [h1]

/-- Claim C2 (amended) witness: with both matching rows in the response
the first listed row is returned. -/
theorem poll_selects_first_listed_witness :
    (poll_violation_result storeTwo "uploads/123-abc.png" 0).2 =
      Except.ok (some rowEarly) :=
  poll_selects_first_listed storeTwo "uploads/123-abc.png" 0
    [rowEarly, rowLate] rowEarly [rowLate] rfl rfl

/-- Claim C7 (amended): the polling budget and interval are not caller
parameters: poll_violation_result always behaves as the spec's
parameterized correlate loop instantiated at the fixed module constants
POLL_SECONDS = 25 and POLL_INTERVAL = 2. -/
theorem poll_uses_fixed_constants (ostore : OStore) (key : String) (t0 : Nat) :
    (poll_violation_result ostore key t0).2 =
      correlate_spec_poll ostore key t0 POLL_SECONDS POLL_INTERVAL ∧
    POLL_SECONDS = 25 ∧ POLL_INTERVAL = 2 := by
  refine ⟨?_, rfl, rfl⟩
  exact pollLoopAux_eq_spec ostore key (t0 + POLL_SECONDS) POLL_SECONDS t0

/-- Claim C7 counterexample: a caller supplying a 30-second budget to the
spec's correlate operation (interval 2) finds the outcome row written at
t = 26, but the code never can: its budget is the fixed module constant
POLL_SECONDS = 25 and the function takes no budget or interval argument. -/
theorem poll_budget_not_configurable :
    correlate_spec_poll lateStore "uploads/late.png" 0 30 2 =
      Except.ok (some lateItem) ∧
    (poll_violation_result lateStore "uploads/late.png" 0).2 = Except.ok none ∧
    POLL_SECONDS = 25 ∧ POLL_INTERVAL = 2 :=
  ⟨rfl, rfl, rfl, rfl⟩

/-- Claim C3: a matched Outcome Store row whose last_missing parses to a
non-empty item list yields status Non-Compliant, and the per-image
violation list of the DisplayResult is exactly the parsed list, so the
per-image count equals the number of parsed items. -/
theorem matched_nonempty_missing_noncompliant (ostore : OStore)
    (pstore : PStore) (key : String) (t0 : Nat) (nowStr : String)
    (vio : VioItem) (p : Option ProfileItem)
    (h1 : (poll_violation_result ostore key t0).2 = Except.ok (some vio))
    (h2 : pstore (vio.EmployeeID.getD "—") = Except.ok p)
    (h3 : parseMissing (vio.last_missing.getD "") ≠ []) :
    ∃ r, (build_display_result ostore pstore key t0 nowStr).2 = Except.ok r ∧
      r.status = "Non-Compliant" ∧
      r.violations = parseMissing (vio.last_missing.getD "") ∧
      r.violations.length = (parseMissing (vio.last_missing.getD "")).length := by
  refine ⟨composeResult vio (p.getD emptyProfile) key nowStr,
    build_matched ostore pstore key t0 nowStr vio p h1 h2, ?_, rfl, rfl⟩
  have hne : (parseMissing (vio.last_missing.getD "")).isEmpty = false := by
    rcases hh : parseMissing (vio.last_missing.getD "") with _ | ⟨a, l⟩
    · exact absurd hh h3
    · rfl
  simp [composeResult, hne]

/-- Claim C3 witness: the Scenario B row ("No Helmet, No Vest",
appearing after 6 seconds) yields Non-Compliant with exactly 2 items. -/
theorem matched_nonempty_missing_noncompliant_witness :
    ∃ r, (build_display_result storeB pstoreB "uploads/123-abc.png" 0
        "2024-05-01 12:00:31").2 = Except.ok r ∧
      r.status = "Non-Compliant" ∧
      r.violations = ["No Helmet", "No Vest"] ∧
      r.violations.length = 2 := by
  obtain ⟨r, ha, hb, hc, hd⟩ :=
    matched_nonempty_missing_noncompliant storeB pstoreB "uploads/123-abc.png" 0
      "2024-05-01 12:00:31" itemB (some profileB) rfl rfl (by decide)
  refine ⟨r, ha, hb, ?_, ?_⟩
  · rw [hc]
    rfl
  · rw [hd]
    rfl

/-- Claim C4: a matched Outcome Store row whose last_missing is absent
or the empty string yields an empty violations list and status
Compliant. -/
theorem matched_empty_missing_compliant (ostore : OStore) (pstore : PStore)
    (key : String) (t0 : Nat) (nowStr : String)
    (vio : VioItem) (p : Option ProfileItem)
    (h1 : (poll_violation_result ostore key t0).2 = Except.ok (some vio))
    (h2 : pstore (vio.EmployeeID.getD "—") = Except.ok p)
    (h3 : vio.last_missing.getD "" = "") :
    ∃ r, (build_display_result ostore pstore key t0 nowStr).2 = Except.ok r ∧
      r.violations = [] ∧ r.status = "Compliant" := by
  refine ⟨composeResult vio (p.getD emptyProfile) key nowStr,
    build_matched ostore pstore key t0 nowStr vio p h1 h2, ?_, ?_⟩
  · have h0 : parseMissing "" = [] := rfl
    simp [composeResult, h3, h0]
  · have h0 : parseMissing "" = [] := rfl
    simp [composeResult, h3, h0]

/-- Claim C4 witness: the Scenario D row (last_missing is the empty
string) yields an empty list and status Compliant. -/
theorem matched_empty_missing_compliant_witness :
    ∃ r, (build_display_result storeClean pstoreEmpty "uploads/clean.png" 0
        "2024-05-01 11:00:30").2 = Except.ok r ∧
      r.violations = [] ∧ r.status = "Compliant" :=
  matched_empty_missing_compliant storeClean pstoreEmpty "uploads/clean.png" 0
    "2024-05-01 11:00:30" itemClean none rfl rfl rfl

/-- Claim C5: an unreachable store surfaces as a propagated
InfraError, which is distinct from the timeout placeholder result: a
Profile Store connection error after a match propagates out of
build_display_result instead of producing a silently-empty profile, and
an Outcome Store failure propagates likewise. -/
theorem store_failure_surfaces_error (ostore : OStore) (pstore : PStore)
    (key : String) (t0 : Nat) (nowStr : String) (vio : VioItem)
    (e : InfraError) :
    ((poll_violation_result ostore key t0).2 = Except.ok (some vio) →
      pstore (vio.EmployeeID.getD "—") = Except.error e →
      (build_display_result ostore pstore key t0 nowStr).2 = Except.error e) ∧
    ((poll_violation_result ostore key t0).2 = Except.error e →
      (build_display_result ostore pstore key t0 nowStr).2 = Except.error e) ∧
    (Except.error e ≠
      Except.ok (placeholderResult key nowStr)) := by
  refine ⟨fun h1 h2 => build_profile_error ostore pstore key t0 nowStr vio e h1 h2,
    fun h1 => build_poll_error ostore pstore key t0 nowStr e h1, ?_⟩
  intro hcontra
  exact Except.noConfusion hcontra

/-- Claim C5 witness: with the Scenario B outcome row matched and the
Profile Store down, the connection error propagates; likewise when the
Outcome Store itself is down. -/
theorem store_failure_surfaces_error_witness :
    (build_display_result storeB pstoreDown "uploads/123-abc.png" 0
        "2024-05-01 12:00:31").2 = Except.error connErr ∧
    (build_display_result ostoreDown pstoreB "uploads/123-abc.png" 0
        "2024-05-01 12:00:31").2 = Except.error connErr :=
  ⟨(store_failure_surfaces_error storeB pstoreDown "uploads/123-abc.png" 0
      "2024-05-01 12:00:31" itemB connErr).1 rfl rfl,
   (store_failure_surfaces_error ostoreDown pstoreB "uploads/123-abc.png" 0
      "2024-05-01 12:00:31" itemB connErr).2.1 rfl⟩

/-- Claim C6: when the Profile Store has no record for the employee id
of the matched row, build_display_result still returns a complete
DisplayResult (no error): the name falls back to the employee id and the
department and site to the dash placeholder. -/
theorem missing_profile_placeholder_fields (ostore : OStore) (pstore : PStore)
    (key : String) (t0 : Nat) (nowStr : String) (vio : VioItem)
    (h1 : (poll_violation_result ostore key t0).2 = Except.ok (some vio))
    (h2 : pstore (vio.EmployeeID.getD "—") = Except.ok none) :
    ∃ r, (build_display_result ostore pstore key t0 nowStr).2 = Except.ok r ∧
      r.employee_id = vio.EmployeeID.getD "—" ∧
      r.name = vio.EmployeeID.getD "—" ∧
      r.department = "—" ∧ r.site = "—" ∧ r.image_key = key := by
  refine ⟨composeResult vio ((none : Option ProfileItem).getD emptyProfile) key nowStr,
    build_matched ostore pstore key t0 nowStr vio none h1 h2, rfl, ?_, rfl, rfl, rfl⟩
  simp [composeResult, emptyProfile, pyOr]

/-- Claim C6 witness: the row without a profile still produces a full
result with placeholder fields. -/
theorem missing_profile_placeholder_fields_witness :
    ∃ r, (build_display_result storeClean pstoreEmpty "uploads/clean.png" 0
        "2024-05-01 11:00:30").2 = Except.ok r ∧
      r.employee_id = "emp05" ∧ r.name = "emp05" ∧
      r.department = "—" ∧ r.site = "—" ∧ r.image_key = "uploads/clean.png" := by
  obtain ⟨r, ha, hb, hc, hd, he, hf⟩ :=
    missing_profile_placeholder_fields storeClean pstoreEmpty "uploads/clean.png" 0
      "2024-05-01 11:00:30" itemClean rfl rfl
  refine ⟨r, ha, ?_, ?_, hd, he, hf⟩
  · rw [hb]
    rfl
  · rw [hc]
    rfl

/-- Claim C8: the timeout is a wall-clock deadline fixed at entry: every
Outcome Store scan in the trace of build_display_result is issued at a
time strictly before t0 + POLL_SECONDS, however many iterations ran. -/
theorem scans_before_deadline (ostore : OStore) (pstore : PStore)
    (key : String) (t0 : Nat) (nowStr : String) (u : Nat) (k : String)
    (hmem : StoreOp.scanOutcome u k ∈
      (build_display_result ostore pstore key t0 nowStr).1) :
    u < t0 + POLL_SECONDS := by
  have hscan : ∀ v kk, StoreOp.scanOutcome v kk ∈
      (poll_violation_result ostore key t0).1 → v < t0 + POLL_SECONDS :=
    fun v kk h =>
      pollLoopAux_scan_lt ostore key (t0 + POLL_SECONDS) POLL_SECONDS t0 v kk h
  unfold build_display_result at hmem
  rcases hp : poll_violation_result ostore key t0 with ⟨tr, r⟩
  rw [hp] at hmem
  have htr : ∀ v kk, StoreOp.scanOutcome v kk ∈ tr → v < t0 + POLL_SECONDS := by
    intro v kk h
    apply hscan v kk
    rw [hp]
    exact h
  rcases r with e | vio
  · exact htr u k hmem
  · rcases vio with _ | vio
    · exact htr u k hmem
    · dsimp only at hmem
      unfold get_employee_profile at hmem
      rcases hq : pstore (vio.EmployeeID.getD "—") with e | item
      · rw [hq] at hmem
        dsimp only at hmem
        rw [List.mem_append] at hmem
        rcases hmem with h | h
        · exact htr u k h
        · simp at h
      · rw [hq] at hmem
        dsimp only at hmem
        rw [List.mem_append] at hmem
        rcases hmem with h | h
        · exact htr u k h
        · simp at h

/-- Claim C8 witness: the very first scan of a timing-out run happens at
t = 0, before the deadline 25. -/
theorem scans_before_deadline_witness : (0 : Nat) < 0 + POLL_SECONDS :=
  scans_before_deadline emptyOStore pstoreEmpty "uploads/123-abc.png" 0
    "2024-05-01 12:00:31" 0 "uploads/123-abc.png" (by decide)

/-- Claim C9: build_display_result is read-only against the Outcome and
Profile Stores: its trace holds only read operations, and replaying the
trace over any store contents leaves them unchanged, on success, timeout
and failure alike. -/
theorem correlate_read_only (ostore : OStore) (pstore : PStore) (key : String)
    (t0 : Nat) (nowStr : String) :
    ((build_display_result ostore pstore key t0 nowStr).1.all StoreOp.isRead)
        = true ∧
    ∀ s : StoresState,
      ((build_display_result ostore pstore key t0 nowStr).1.foldl applyOp s) = s := by
  have h := build_all_reads ostore pstore key t0 nowStr
  exact ⟨h, fun s => foldl_reads_id _ h s⟩

/-- Claim C10: a matched row lacking the violations attribute yields a
DisplayResult whose violation_count entry is present and equal to the
integer 0 (the int coercion of the dict default), not an error and not
an absent entry. -/
theorem absent_count_coerced_zero (ostore : OStore) (pstore : PStore)
    (key : String) (t0 : Nat) (nowStr : String)
    (vio : VioItem) (p : Option ProfileItem)
    (h1 : (poll_violation_result ostore key t0).2 = Except.ok (some vio))
    (h2 : pstore (vio.EmployeeID.getD "—") = Except.ok p)
    (h3 : vio.violations = none) :
    ∃ r, (build_display_result ostore pstore key t0 nowStr).2 = Except.ok r ∧
      r.violation_count = some 0 := by
  refine ⟨composeResult vio (p.getD emptyProfile) key nowStr,
    build_matched ostore pstore key t0 nowStr vio p h1 h2, ?_⟩
  simp [composeResult, h3]

/-- Claim C10 witness: the row without a violations attribute yields
violation_count = some 0. -/
theorem absent_count_coerced_zero_witness :
    ∃ r, (build_display_result storeNoCount pstoreEmpty "uploads/nocount.png" 0
        "2024-05-01 11:00:30").2 = Except.ok r ∧
      r.violation_count = some 0 :=
  absent_count_coerced_zero storeNoCount pstoreEmpty "uploads/nocount.png" 0
    "2024-05-01 11:00:30" itemNoCount none rfl rfl rfl

end PPEDetect
